import Mathlib

/-!
Shallow embedding of `configure_ssids.py` (Meraki AP configuration by tag).

Python dictionaries (SSID records) are modelled as insertion-ordered
association lists over a value type `Val`; the Meraki dashboard SDK is
modelled as a record of pure functions (`Dashboard`); every embedded
function returns, besides its value, the list of API calls it issued
(`ApiEvent`) and the lines it printed.  A Python exception that the code
does not catch is modelled by the `Except PyErr` component of the result;
exceptions raised by the SDK update call (which the code catches) are
modelled by the `Except String` result of the dashboard update function.
Python `set` objects are modelled as insertion-ordered duplicate-free
lists.  Rich panel banners and `input()` prompts are display only and are
not part of the modelled output.
-/

set_option autoImplicit false

namespace ConfigureSsids

/-- A Python value appearing in an SSID record. -/
inductive Val where
  | str (s : String)
  | int (n : Int)
  | bool (b : Bool)
deriving DecidableEq, Repr

/-- A Python dict with string keys, as an insertion-ordered association list. -/
abbrev Dict := List (String × Val)

/-- A Python exception that the program does not catch. -/
inductive PyErr where
  | keyError (k : String)
  | valueError (s : String)
  | indexError
  | typeError
  | eofError
deriving DecidableEq, Repr

deriving instance DecidableEq for Except

/-- Lookup in an association map (first binding wins, as in a Python dict,
whose keys are unique). -/
def assocGet {α : Type} (m : List (String × α)) (k : String) : Option α :=
  match m with
  | [] => none
  | p :: rest => if p.1 = k then some p.2 else assocGet rest k

/-- `m[k] = v` on a Python dict: replace the binding in place if the key is
present, otherwise append it (insertion order is preserved). -/
def assocSet {α : Type} (m : List (String × α)) (k : String) (v : α) :
    List (String × α) :=
  match m with
  | [] => [(k, v)]
  | p :: rest => if p.1 = k then (k, v) :: rest else p :: assocSet rest k v

/-- Removal of a key from a Python dict (order of the other bindings kept). -/
def assocErase {α : Type} (m : List (String × α)) (k : String) :
    List (String × α) :=
  match m with
  | [] => []
  | p :: rest => if p.1 = k then assocErase rest k else p :: assocErase rest k

/-- `d[k]` on a Python dict: `KeyError` when the key is absent. -/
def pyGet (d : Dict) (k : String) : Except PyErr Val :=
  match assocGet d k with
  | some v => .ok v
  | none => .error (.keyError k)

/-- How a `Val` renders inside a Python f-string. -/
def valText : Val → String
  | .str s => s
  | .int n => toString n
  | .bool b => if b then "True" else "False"

/-- Use of a `Val` where the program only ever passes a `str`. -/
def valStr : Val → Except PyErr String
  | .str s => .ok s
  | _ => .error .typeError

/-- Python `set.add` on a set modelled as an insertion-ordered
duplicate-free list. -/
def setAdd (s : List String) (x : String) : List String :=
  if x ∈ s then s else s ++ [x]

/-- Python `s.lower()` (on the ASCII names and replies this program
handles), written as a structural map over the characters. -/
def strLower (s : String) : String := String.mk (s.data.map Char.toLower)

/-- The whitespace stripping `int()` performs on its argument. -/
def trimChars (cs : List Char) : List Char :=
  ((cs.dropWhile Char.isWhitespace).reverse.dropWhile Char.isWhitespace).reverse

/-- Whether the first character list starts the second (used to state facts
about printed lines). -/
def leadsWith : List Char → List Char → Bool
  | [], _ => true
  | _ :: _, [] => false
  | c :: cs, d :: ds => c = d && leadsWith cs ds

/-- Whether the first character list occurs inside the second. -/
def hasSubChars (needle : List Char) : List Char → Bool
  | [] => leadsWith needle []
  | d :: ds => leadsWith needle (d :: ds) || hasSubChars needle ds

/-- Whether `needle` occurs as a substring of `s` (used to state that a
log line does not mention an SSID name). -/
def hasSub (needle s : String) : Bool := hasSubChars needle.data s.data

/-- `int(s)`: the digits of a decimal literal. -/
def parseNatDigits (cs : List Char) : Option Nat :=
  if cs ≠ [] ∧ cs.all Char.isDigit then
    some (cs.foldl (fun a c => a * 10 + (c.toNat - 48)) 0)
  else none

/-- Python `int(s)`: optional surrounding whitespace, optional sign, decimal
digits; `ValueError` otherwise. -/
def pyInt (s : String) : Except PyErr Int :=
  match trimChars s.data with
  | '-' :: rest =>
    match parseNatDigits rest with
    | some n => .ok (-(n : Int))
    | none => .error (.valueError s)
  | '+' :: rest =>
    match parseNatDigits rest with
    | some n => .ok (n : Int)
    | none => .error (.valueError s)
  | cs =>
    match parseNatDigits cs with
    | some n => .ok (n : Int)
    | none => .error (.valueError s)

/-- Python `l[i]` on a list: negative indices count from the end,
out-of-range indices raise `IndexError`. -/
def pyIndex {α : Type} (l : List α) (i : Int) : Except PyErr α :=
  let j := if i < 0 then i + l.length else i
  if h : 0 ≤ j ∧ j.toNat < l.length then .ok (l.get ⟨j.toNat, h.2⟩)
  else .error .indexError

/-- Python `l.index(x)`: position of the first element equal to `x`,
`ValueError` when absent. -/
def pyListIndex (x : Dict) : List Dict → Except PyErr Nat
  | [] => .error (.valueError "x not in list")
  | y :: rest => if y = x then .ok 0 else (pyListIndex x rest).map (· + 1)

/-- A network record of the organization (spec section 3 data model). -/
structure Network where
  id : String
  name : String
  productTypes : List String
deriving DecidableEq, Repr

/-- The Meraki dashboard SDK, as pure functions of the arguments the
program passes.  `getOrganizationDevices` is already specialized to the
fixed keyword arguments used by the source
(`tagsFilterType="withAnyTags"`, `productTypes=["wireless"]`,
`total_pages="all"`): its arguments are organization id, network id, and
the single tag of the `tags` list.  `updateNetworkWirelessSsid` returns
`.ok` on success and `.error msg` when the SDK raises an exception with
text `msg`. -/
structure Dashboard where
  getOrganizationNetworks : String → List Network
  getNetworkWirelessSsids : String → List Dict
  getOrganizationDevices : String → String → String → List Dict
  updateNetworkWirelessSsid : String → Val → Dict → Except String Unit

/-- One API call issued during a run. -/
inductive ApiEvent where
  | getNetworks (org : String)
  | getSsids (net : String)
  | getDevices (org : String) (net : String) (tag : String)
  | updateSsid (net : String) (num : Val) (payload : Dict)
deriving DecidableEq, Repr

/-- The loop body of `get_network_id`: first network whose name equals the
configured name. -/
def find_network_id (net_name : String) : List Network → Option String
  | [] => none
  | nw :: rest => if nw.name = net_name then some nw.id else find_network_id net_name rest

/-- `get_network_id` (source lines 24-37): list all organization networks
and return the id of the first exact name match, `None` otherwise. -/
def get_network_id (db : Dashboard) (org_id net_name : String) :
    Option String × List ApiEvent :=
  (find_network_id net_name (db.getOrganizationNetworks org_id),
   [.getNetworks org_id])

/-- `get_wireless_networks` (source lines 39-52): keep the networks whose
`productTypes` contain `"wireless"`. -/
def get_wireless_networks (db : Dashboard) (org_id : String) :
    List Network × List ApiEvent :=
  ((db.getOrganizationNetworks org_id).filter
      (fun nw => nw.productTypes.contains "wireless"),
   [.getNetworks org_id])

/-- Inner loop of `get_all_ssids`: keep the SSIDs whose name does not start
with `"Unconfigured"`; `ssid["name"]` raises `KeyError` when absent. -/
def keep_configured : List Dict → Except PyErr (List Dict)
  | [] => .ok []
  | s :: rest =>
    match pyGet s "name" with
    | .error e => .error e
    | .ok v =>
      match valStr v with
      | .error e => .error e
      | .ok nm =>
        match keep_configured rest with
        | .error e => .error e
        | .ok tail => .ok (if nm.startsWith "Unconfigured" then tail else s :: tail)

/-- The keep-condition of `get_all_ssids` as a boolean predicate on a
record: a string `name` field that does not start with `Unconfigured`. -/
def isConfiguredName (s : Dict) : Bool :=
  match assocGet s "name" with
  | some (Val.str t) => !(t.startsWith "Unconfigured")
  | _ => false

/-- `get_all_ssids` (source lines 54-74): fetch each wireless network's
SSID list and collect the non-placeholder SSIDs, in network order. -/
def get_all_ssids (db : Dashboard) :
    List Network → Except PyErr (List Dict) × List ApiEvent × List String
  | [] => (.ok [], [], [])
  | nw :: rest =>
    let line := "Retrieving SSIDs for the " ++ nw.name ++ " network"
    match keep_configured (db.getNetworkWirelessSsids nw.id) with
    | .error e => (.error e, [.getSsids nw.id], [line])
    | .ok kept =>
      match get_all_ssids db rest with
      | (r, tr, out) =>
        (r.map (fun l => kept ++ l), .getSsids nw.id :: tr, line :: out)

/-- `make_ssid_dict` (source lines 76-87): fold the SSID list into a
name-keyed dict (`ssid_dict[name] = ssid`, later records overwriting
earlier ones in place). -/
def make_ssid_dict (acc : List (String × Dict)) :
    List Dict → Except PyErr (List (String × Dict))
  | [] => .ok acc
  | s :: rest =>
    match pyGet s "name" with
    | .error e => .error e
    | .ok nv =>
      match valStr nv with
      | .error e => .error e
      | .ok name => make_ssid_dict (assocSet acc name s) rest

/-- Loop body of `get_ap_ssids`: for each catalog SSID, query the devices
of the network carrying that SSID name as a tag, and add the tag to the
set when at least one access point matches. -/
def ap_ssids_loop (db : Dashboard) (org_id net_id : String) (acc : List String) :
    List Dict → Except PyErr (List String) × List ApiEvent × List String
  | [] => (.ok acc, [], [])
  | s :: rest =>
    match pyGet s "name" with
    | .error e => (.error e, [], [])
    | .ok tv =>
      match valStr tv with
      | .error e => (.error e, [], [])
      | .ok tag =>
        let line := "Retrieving all APs with the tag " ++ tag
        let aps := db.getOrganizationDevices org_id net_id tag
        let acc2 := if aps.isEmpty then acc else setAdd acc tag
        match ap_ssids_loop db org_id net_id acc2 rest with
        | (r, tr, out) => (r, .getDevices org_id net_id tag :: tr, line :: out)

/-- `get_ap_ssids` (source lines 89-113): the AP-tag / SSID-name matches of
one network, as a set built starting from `set()`. -/
def get_ap_ssids (db : Dashboard) (org_id net_id : String) (ssids : List Dict) :
    Except PyErr (List String) × List ApiEvent × List String :=
  ap_ssids_loop db org_id net_id [] ssids

/-- `configure_net_ssids` (source lines 115-130): force `number` to `3`,
pop it back out, submit the rest of the record to slot `ssid_num`, catch
any SDK exception, log it with the SSID name and return `False`.  The
returned `Dict` is the post-state of the (shared, mutated) record.  The
`ssid_config["name"]` lookup in the handler can itself raise `KeyError`,
which the function does not catch. -/
def configure_net_ssids (db : Dashboard) (net_id : String) (ssid_config : Dict) :
    Except PyErr (Bool × Dict) × List ApiEvent × List String :=
  let c := assocSet ssid_config "number" (.int 3)
  match pyGet c "number" with
  | .error e => (.error e, [], [])
  | .ok numv =>
    let payload := assocErase c "number"
    match db.updateNetworkWirelessSsid net_id numv payload with
    | .ok _ => (.ok (true, payload), [.updateSsid net_id numv payload], [])
    | .error e =>
      match pyGet payload "name" with
      | .error ke => (.error ke, [.updateSsid net_id numv payload], [])
      | .ok nm =>
        (.ok (false, payload),
         [.updateSsid net_id numv payload],
         ["There was an issue configuring the SSID " ++ valText nm ++
            " for the following reason:", e])

/-- Loop body of `get_psk_net_ssids`: keep the SSIDs whose `authMode`
equals `"psk"`, as `{name, number, net_id}` records, in list order. -/
def psk_filter (net_id : String) : List Dict → Except PyErr (List Dict)
  | [] => .ok []
  | s :: rest =>
    match pyGet s "authMode" with
    | .error e => .error e
    | .ok am =>
      if am = .str "psk" then
        match pyGet s "name" with
        | .error e => .error e
        | .ok nv =>
          match pyGet s "number" with
          | .error e => .error e
          | .ok numv =>
            match psk_filter net_id rest with
            | .error e => .error e
            | .ok tail =>
              .ok ([("name", nv), ("number", numv), ("net_id", .str net_id)] :: tail)
      else psk_filter net_id rest

/-- `get_psk_net_ssids` (source lines 132-149): the PSK-authenticated SSIDs
of one network. -/
def get_psk_net_ssids (db : Dashboard) (net_id : String) :
    Except PyErr (List Dict) × List ApiEvent :=
  (psk_filter net_id (db.getNetworkWirelessSsids net_id), [.getSsids net_id])

/-- The per-record fields `get_psk_net_ssids` reads: `authMode` is always
read, `name` and `number` only for PSK records. -/
def PskOK (s : Dict) : Prop :=
  (assocGet s "authMode").isSome ∧
  (assocGet s "authMode" = some (Val.str "psk") →
    (assocGet s "name").isSome ∧ (assocGet s "number").isSome)

instance (s : Dict) : Decidable (PskOK s) := by
  unfold PskOK
  infer_instance

/-- The PSK records of one network, written as a `filterMap`: the order-
and content-specification `psk_filter` is proved to satisfy. -/
def psk_spec_one (db : Dashboard) (net_id : String) : List Dict :=
  (db.getNetworkWirelessSsids net_id).filterMap (fun s =>
    if assocGet s "authMode" = some (Val.str "psk") then
      match assocGet s "name", assocGet s "number" with
      | some nv, some numv =>
        some [("name", nv), ("number", numv), ("net_id", Val.str net_id)]
      | _, _ => none
    else none)

/-- Position of the first occurrence of a record in a list (total version
of `pyListIndex`). -/
def listIdx (x : Dict) : List Dict → Nat
  | [] => 0
  | y :: rest => if y = x then 0 else listIdx x rest + 1

/-- The fields of a rotation entry that the listing loop reads, with the
entry present in the printed list and its network known to the run. -/
def LineOK (n2n : List (String × String)) (full : List Dict) (s : Dict) : Prop :=
  s ∈ full ∧ (assocGet s "name").isSome ∧
  ∃ nid, assocGet s "net_id" = some (Val.str nid) ∧ (assocGet n2n nid).isSome

/-- The listing line printed for one rotation entry. -/
def line_for (n2n : List (String × String)) (full : List Dict) (s : Dict) : String :=
  toString (listIdx s full) ++ " - " ++
    valText ((assocGet s "name").getD (Val.str "")) ++ " of " ++
    ((assocGet n2n (match assocGet s "net_id" with
      | some (Val.str t) => t
      | _ => "")).getD "")

/-- `change_ssid_psk` (source lines 151-165): submit
`authMode="psk", psk=psk` to the given SSID slot, catch any SDK exception,
log it and return `False`. -/
def change_ssid_psk (db : Dashboard) (net_id : String) (ssid_num : Val)
    (psk : String) : Bool × List ApiEvent × List String :=
  let payload : Dict := [("authMode", .str "psk"), ("psk", .str psk)]
  match db.updateNetworkWirelessSsid net_id ssid_num payload with
  | .ok _ => (true, [.updateSsid net_id ssid_num payload], [])
  | .error e =>
    (false, [.updateSsid net_id ssid_num payload],
     ["There was an issue assigning a new password to the SSID for the following reason:",
      e])

/-- Resolution loop of `main` (source lines 182-192): resolve each
configured name, building the `net_id_to_name` dict; on the first
unresolved name print the error, print `Aborting program...` and stop
(`none`). -/
def resolve_nets (db : Dashboard) (org_id : String)
    (acc : List (String × String)) :
    List String → Option (List (String × String)) × List ApiEvent × List String
  | [] => (some acc, [], [])
  | n :: rest =>
    match get_network_id db org_id n with
    | (none, tr) =>
      (none, tr,
       ["There was an error trying to find the network with name " ++ n,
        "Aborting program..."])
    | (some net_id, tr) =>
      match resolve_nets db org_id (assocSet acc net_id n) rest with
      | (r, tr2, out2) => (r, tr ++ tr2, out2)

/-- Tag-matching loop of `main` (source lines 209-211): one
`get_ap_ssids` call per entry of `net_id_to_name`, in key order. -/
def tag_match_loop (db : Dashboard) (org_id : String) (all_ssids : List Dict) :
    List (String × String) →
    Except PyErr (List (String × List String)) × List ApiEvent × List String
  | [] => (.ok [], [], [])
  | (net_id, _) :: rest =>
    match get_ap_ssids db org_id net_id all_ssids with
    | (.error e, tr, out) => (.error e, tr, out)
    | (.ok s, tr, out) =>
      match tag_match_loop db org_id all_ssids rest with
      | (r, tr2, out2) => (r.map (fun l => (net_id, s) :: l), tr ++ tr2, out ++ out2)

/-- Inner configuration loop of `main` (source lines 225-233): configure
each matched SSID name of one network; the result threads the name-keyed
catalog, since `configure_net_ssids` mutates the shared record. -/
def configure_one_net (db : Dashboard) (net_name net_id : String)
    (ssid_dict : List (String × Dict)) :
    List String →
    Except PyErr (List (String × Dict)) × List ApiEvent × List String
  | [] => (.ok ssid_dict, [], [])
  | ssid_name :: rest =>
    match assocGet ssid_dict ssid_name with
    | none => (.error (.keyError ssid_name), [], [])
    | some ssid =>
      match configure_net_ssids db net_id ssid with
      | (.error e, tr, out) => (.error e, tr, out)
      | (.ok (configured, pd), tr, out) =>
        let line :=
          if configured then net_name ++ " configured with ssid " ++ ssid_name
          else "There was an issue configuring ssid " ++ ssid_name ++ " on " ++ net_name
        match configure_one_net db net_name net_id (assocSet ssid_dict ssid_name pd) rest with
        | (r, tr2, out2) => (r, tr ++ tr2, out ++ [line] ++ out2)

/-- Outer configuration loop of `main` (source lines 220-233): one pass of
`configure_one_net` per network of `network_to_ssids`, in key order. -/
def configure_loop (db : Dashboard) (n2n : List (String × String))
    (ssid_dict : List (String × Dict)) :
    List (String × List String) →
    Except PyErr (List (String × Dict)) × List ApiEvent × List String
  | [] => (.ok ssid_dict, [], [])
  | (net_id, names) :: rest =>
    match assocGet n2n net_id with
    | none => (.error (.keyError net_id), [], [])
    | some net_name =>
      let line := "Configuring the SSIDs of the " ++ net_name ++ " network"
      match configure_one_net db net_name net_id ssid_dict names with
      | (.error e, tr, out) => (.error e, tr, line :: out)
      | (.ok sd2, tr, out) =>
        match configure_loop db n2n sd2 rest with
        | (r, tr2, out2) => (r, tr ++ tr2, (line :: out) ++ out2)

/-- PSK collection loop of `main` (source lines 237-239): concatenate the
PSK SSIDs of each target network, in key order. -/
def psk_collect (db : Dashboard) :
    List (String × List String) → Except PyErr (List Dict) × List ApiEvent
  | [] => (.ok [], [])
  | (net_id, _) :: rest =>
    match get_psk_net_ssids db net_id with
    | (.error e, tr) => (.error e, tr)
    | (.ok l, tr) =>
      match psk_collect db rest with
      | (r, tr2) => (r.map (fun l2 => l ++ l2), tr ++ tr2)

/-- PSK listing loop of `main` (source lines 241-244): print
`{index} - {name} of {net_name}` for each entry, `index` being
`psk_ssids.index(ssid)` (position of the first equal record). -/
def psk_print_lines (n2n : List (String × String)) (psk_ssids : List Dict) :
    List Dict → Except PyErr (List String)
  | [] => .ok []
  | s :: rest =>
    match pyListIndex s psk_ssids with
    | .error e => .error e
    | .ok index =>
      match pyGet s "net_id" with
      | .error e => .error e
      | .ok nidv =>
        match valStr nidv with
        | .error e => .error e
        | .ok nid =>
          match assocGet n2n nid with
          | none => .error (.keyError nid)
          | some net_name =>
            match pyGet s "name" with
            | .error e => .error e
            | .ok nv =>
              match psk_print_lines n2n psk_ssids rest with
              | .error e => .error e
              | .ok tail =>
                .ok ((toString index ++ " - " ++ valText nv ++ " of " ++ net_name) :: tail)

/-- Interactive PSK rotation loop of `main` (source lines 247-261), reading
from a finite input stream.  The loop stops cleanly when the prompted
answer lowercases to `"n"`; otherwise the answer is parsed with `int`,
indexed into `psk_ssids`, the record fields are read, a new password is
read, `change_ssid_psk` runs and its outcome is reported before looping.
An exhausted input stream models `EOFError` from `input()`. -/
def psk_loop (db : Dashboard) (n2n : List (String × String))
    (psk_ssids : List Dict) :
    List String → Except PyErr Unit × List ApiEvent × List String
  | [] => (.error .eofError, [], [])
  | idx :: rest =>
    if strLower idx = "n" then (.ok (), [], [])
    else
      match pyInt idx with
      | .error e => (.error e, [], [])
      | .ok i =>
        match pyIndex psk_ssids i with
        | .error e => (.error e, [], [])
        | .ok r =>
          match pyGet r "number" with
          | .error e => (.error e, [], [])
          | .ok numv =>
            match pyGet r "name" with
            | .error e => (.error e, [], [])
            | .ok namev =>
              match pyGet r "net_id" with
              | .error e => (.error e, [], [])
              | .ok nidv =>
                match valStr nidv with
                | .error e => (.error e, [], [])
                | .ok net_id =>
                  match assocGet n2n net_id with
                  | none => (.error (.keyError net_id), [], [])
                  | some net_name =>
                    match rest with
                    | [] => (.error .eofError, [], [])
                    | new_psk :: rest2 =>
                      match change_ssid_psk db net_id numv new_psk with
                      | (configured, tr1, log) =>
                        let line :=
                          if configured then
                            valText namev ++ " of network " ++ net_name ++
                              " configured with a new psk"
                          else
                            "There was an issue configuring a new psk for " ++
                              valText namev ++ " of network " ++ net_name
                        match psk_loop db n2n psk_ssids rest2 with
                        | (r2, tr2, out2) => (r2, tr1 ++ tr2, log ++ [line] ++ out2)

/-- `main` (source lines 167-261), as a function of the dashboard data, the
configuration (organization id and network names) and the interactive
input stream.  The result is the final status (`.ok` for a normal return,
`.error` for an uncaught exception), the full API call trace, and the
printed lines. -/
def main (db : Dashboard) (org_id : String) (net_names : List String)
    (inputs : List String) : Except PyErr Unit × List ApiEvent × List String :=
  match resolve_nets db org_id [] net_names with
  | (none, tr1, out1) => (.ok (), tr1, out1)
  | (some n2n, tr1, out1) =>
    match get_wireless_networks db org_id with
    | (wireless_networks, tr2) =>
      match get_all_ssids db wireless_networks with
      | (.error e, tr3, out3) => (.error e, tr1 ++ tr2 ++ tr3, out1 ++ out3)
      | (.ok all_ssids, tr3, out3) =>
        match make_ssid_dict [] all_ssids with
        | .error e => (.error e, tr1 ++ tr2 ++ tr3, out1 ++ out3)
        | .ok ssid_dict =>
          match tag_match_loop db org_id all_ssids n2n with
          | (.error e, tr4, out4) =>
            (.error e, tr1 ++ tr2 ++ tr3 ++ tr4, out1 ++ out3 ++ out4)
          | (.ok network_to_ssids, tr4, out4) =>
            match configure_loop db n2n ssid_dict network_to_ssids with
            | (.error e, tr5, out5) =>
              (.error e, tr1 ++ tr2 ++ tr3 ++ tr4 ++ tr5,
               out1 ++ out3 ++ out4 ++ out5)
            | (.ok _, tr5, out5) =>
              match psk_collect db network_to_ssids with
              | (.error e, tr6) =>
                (.error e, tr1 ++ tr2 ++ tr3 ++ tr4 ++ tr5 ++ tr6,
                 out1 ++ out3 ++ out4 ++ out5)
              | (.ok psk_ssids, tr6) =>
                match psk_print_lines n2n psk_ssids psk_ssids with
                | .error e =>
                  (.error e, tr1 ++ tr2 ++ tr3 ++ tr4 ++ tr5 ++ tr6,
                   out1 ++ out3 ++ out4 ++ out5)
                | .ok listing =>
                  match psk_loop db n2n psk_ssids inputs with
                  | (r, tr7, out7) =>
                    (r, tr1 ++ tr2 ++ tr3 ++ tr4 ++ tr5 ++ tr6 ++ tr7,
                     out1 ++ out3 ++ out4 ++ out5 ++ listing ++ out7)

/-! Sample organization data, used to witness the theorems below on
concrete inputs. -/

/-- A wireless network of the sample organization. -/
def sampleNetA : Network := { id := "N1", name := "Branch-A", productTypes := ["wireless"] }

/-- A non-wireless network of the sample organization. -/
def sampleNetB : Network := { id := "N2", name := "HQ", productTypes := ["appliance"] }

/-- A PSK SSID record of the sample organization. -/
def sampleGuest : Dict :=
  [("name", .str "Guest"), ("number", .int 0), ("authMode", .str "psk"), ("psk", .str "old")]

/-- A second PSK SSID record of the sample organization. -/
def sampleStaff : Dict :=
  [("name", .str "Staff"), ("number", .int 1), ("authMode", .str "psk")]

/-- An open-auth SSID record of the sample organization. -/
def sampleLobby : Dict :=
  [("name", .str "Lobby"), ("number", .int 2), ("authMode", .str "open")]

/-- A placeholder SSID record of the sample organization. -/
def sampleUnconfigured : Dict :=
  [("name", .str "Unconfigured SSID 4"), ("number", .int 3), ("authMode", .str "open")]

/-- A sample dashboard whose update calls succeed. -/
def sampleDb : Dashboard where
  getOrganizationNetworks := fun _ => [sampleNetA, sampleNetB]
  getNetworkWirelessSsids := fun _ => [sampleGuest, sampleStaff, sampleLobby, sampleUnconfigured]
  getOrganizationDevices := fun _ _ tag => if tag = "Guest" then [[("serial", .str "Q1")]] else []
  updateNetworkWirelessSsid := fun _ _ _ => .ok ()

/-- The sample dashboard with update calls that raise. -/
def sampleDbFail : Dashboard :=
  { sampleDb with updateNetworkWirelessSsid := fun _ _ _ => .error "bad request" }

/-- A PSK rotation entry as built by `get_psk_net_ssids`, used to witness
the rotation-loop theorems. -/
def sampleRot : Dict :=
  [("name", .str "Guest"), ("number", .int 0), ("net_id", .str "N1")]

/-- The second PSK rotation entry of the sample network. -/
def sampleRotStaff : Dict :=
  [("name", .str "Staff"), ("number", .int 1), ("net_id", .str "N1")]

/-- The sample dashboard after one more access point, tagged `Staff`, was
added to the network. -/
def sampleDbMore : Dashboard :=
  { sampleDb with getOrganizationDevices := fun _ _ tag =>
      if tag = "Guest" then [[("serial", .str "Q1")]]
      else if tag = "Staff" then [[("serial", .str "Q2")]]
      else [] }

end ConfigureSsids

namespace ConfigureSsids

/-! Association-map lemmas. -/

theorem assocGet_assocSet_self {α : Type} (m : List (String × α)) (k : String) (v : α) :
    assocGet (assocSet m k v) k = some v := by
  induction m with
  | nil => simp [assocSet, assocGet]
  | cons p rest ih =>
    by_cases h : p.1 = k
    · simp [assocSet, assocGet, h]
    · simp [assocSet, assocGet, h, ih]

theorem assocGet_assocSet_ne {α : Type} (m : List (String × α)) (k k' : String) (v : α)
    (h : k' ≠ k) : assocGet (assocSet m k v) k' = assocGet m k' := by
  have hk : ¬ k = k' := fun e => h e.symm
  induction m with
  | nil => simp [assocSet, assocGet, hk]
  | cons p rest ih =>
    obtain ⟨a, b⟩ := p
    by_cases ha : a = k
    · subst ha
      simp [assocSet, assocGet, hk]
    · by_cases ha' : a = k'
      · simp [assocSet, assocGet, ha, ha', h, hk]
      · simp [assocSet, assocGet, ha, ha', ih]

theorem assocGet_assocErase_self {α : Type} (m : List (String × α)) (k : String) :
    assocGet (assocErase m k) k = none := by
  induction m with
  | nil => simp [assocErase, assocGet]
  | cons p rest ih =>
    by_cases h : p.1 = k
    · simp [assocErase, h, ih]
    · simp [assocErase, assocGet, h, ih]

theorem assocGet_assocErase_ne {α : Type} (m : List (String × α)) (k k' : String)
    (h : k' ≠ k) : assocGet (assocErase m k) k' = assocGet m k' := by
  have hk : ¬ k = k' := fun e => h e.symm
  induction m with
  | nil => simp [assocErase]
  | cons p rest ih =>
    obtain ⟨a, b⟩ := p
    by_cases ha : a = k
    · subst ha
      simp [assocErase, assocGet, hk, ih]
    · simp [assocErase, assocGet, ha, ih]

theorem assocErase_assocSet {α : Type} (m : List (String × α)) (k : String) (v : α) :
    assocErase (assocSet m k v) k = assocErase m k := by
  induction m with
  | nil => simp [assocSet, assocErase]
  | cons p rest ih =>
    by_cases h : p.1 = k
    · simp [assocSet, assocErase, h]
    · simp [assocSet, assocErase, h, ih]

theorem assocErase_idem {α : Type} (m : List (String × α)) (k : String) :
    assocErase (assocErase m k) k = assocErase m k := by
  induction m with
  | nil => simp [assocErase]
  | cons p rest ih =>
    by_cases h : p.1 = k
    · simp [assocErase, h, ih]
    · simp [assocErase, h, ih]

theorem assocGet_mem {α : Type} (m : List (String × α)) (k : String) (v : α)
    (h : assocGet m k = some v) : (k, v) ∈ m := by
  induction m with
  | nil => simp [assocGet] at h
  | cons p rest ih =>
    obtain ⟨a, b⟩ := p
    by_cases ha : a = k
    · subst ha
      simp [assocGet] at h
      subst h
      exact List.mem_cons_self _ _
    · simp only [assocGet, if_neg ha] at h
      exact List.mem_cons_of_mem _ (ih h)

theorem mem_assocSet {α : Type} (m : List (String × α)) (k : String) (v : α)
    (p : String × α) (h : p ∈ assocSet m k v) : p = (k, v) ∨ p ∈ m := by
  induction m with
  | nil => simpa [assocSet] using h
  | cons q rest ih =>
    obtain ⟨a, b⟩ := q
    by_cases ha : a = k
    · subst ha
      simp only [assocSet, if_pos rfl] at h
      rcases List.mem_cons.mp h with h2 | h2
      · exact Or.inl h2
      · exact Or.inr (List.mem_cons_of_mem _ h2)
    · simp only [assocSet, if_neg ha] at h
      rcases List.mem_cons.mp h with h2 | h2
      · exact Or.inr (by simp [h2])
      · rcases ih h2 with h3 | h3
        · exact Or.inl h3
        · exact Or.inr (List.mem_cons_of_mem _ h3)

theorem isSome_assocGet_assocSet {α : Type} (m : List (String × α)) (k k' : String)
    (v : α) (h : (assocGet m k').isSome) :
    (assocGet (assocSet m k v) k').isSome := by
  by_cases hk : k' = k
  · subst hk
    simp [assocGet_assocSet_self]
  · rwa [assocGet_assocSet_ne m k k' v hk]

theorem keys_assocSet {α : Type} (m : List (String × α)) (k k' : String) (v : α)
    (h : k' ∈ (assocSet m k v).map Prod.fst) : k' = k ∨ k' ∈ m.map Prod.fst := by
  rcases List.mem_map.mp h with ⟨p, hp, hfst⟩
  rcases mem_assocSet m k v p hp with h2 | h2
  · left
    rw [← hfst, h2]
  · right
    exact List.mem_map.mpr ⟨p, h2, hfst⟩

theorem keys_nodup_assocSet {α : Type} (m : List (String × α)) (k : String) (v : α)
    (h : (m.map Prod.fst).Nodup) : ((assocSet m k v).map Prod.fst).Nodup := by
  induction m with
  | nil => simp [assocSet]
  | cons p rest ih =>
    obtain ⟨a, b⟩ := p
    simp only [List.map_cons, List.nodup_cons] at h
    by_cases ha : a = k
    · subst ha
      have hn : (((a, v) :: rest).map Prod.fst).Nodup := by
        simp only [List.map_cons, List.nodup_cons]
        exact ⟨by simpa using h.1, h.2⟩
      simpa [assocSet] using hn
    · have h2 := ih h.2
      have hmem : a ∉ (assocSet rest k v).map Prod.fst := by
        intro hmem
        rcases keys_assocSet rest k a v hmem with h3 | h3
        · exact ha h3
        · exact h.1 (by simpa using h3)
      simp only [assocSet, if_neg ha, List.map_cons, List.nodup_cons]
      exact ⟨hmem, h2⟩

/-! Shape lemmas for `configure_net_ssids`. -/

theorem pyGet_assocSet_self (d : Dict) (k : String) (v : Val) :
    pyGet (assocSet d k v) k = .ok v := by
  simp [pyGet, assocGet_assocSet_self]

theorem configure_net_ssids_eq (db : Dashboard) (net_id : String) (d : Dict) :
    configure_net_ssids db net_id d =
      (match db.updateNetworkWirelessSsid net_id (Val.int 3) (assocErase d "number") with
       | .ok _ =>
         (.ok (true, assocErase d "number"),
          [ApiEvent.updateSsid net_id (Val.int 3) (assocErase d "number")], [])
       | .error e =>
         match pyGet (assocErase d "number") "name" with
         | .error ke =>
           (.error ke,
            [ApiEvent.updateSsid net_id (Val.int 3) (assocErase d "number")], [])
         | .ok nm =>
           (.ok (false, assocErase d "number"),
            [ApiEvent.updateSsid net_id (Val.int 3) (assocErase d "number")],
            ["There was an issue configuring the SSID " ++ valText nm ++
               " for the following reason:", e])) := by
  simp only [configure_net_ssids, pyGet_assocSet_self, assocErase_assocSet]

theorem configure_ok_dict (db : Dashboard) (net_id : String) (d : Dict) (b : Bool)
    (pd : Dict) (tr : List ApiEvent) (out : List String)
    (h : configure_net_ssids db net_id d = (.ok (b, pd), tr, out)) :
    pd = assocErase d "number" := by
  rw [configure_net_ssids_eq] at h
  cases hud : db.updateNetworkWirelessSsid net_id (Val.int 3) (assocErase d "number") with
  | ok u =>
    rw [hud] at h
    simp at h
    exact h.1.2.symm
  | error e =>
    rw [hud] at h
    cases hnm : pyGet (assocErase d "number") "name" with
    | ok nm =>
      rw [hnm] at h
      simp at h
      exact h.1.2.symm
    | error ke =>
      rw [hnm] at h
      simp at h

/-- C2: every SSID record applied by `configure_net_ssids` is submitted to
slot number 3 of the target network regardless of the record's original
`number` value, and the submitted payload is the record with the `number`
field removed and every other field intact. -/
theorem configure_targets_slot_three (db : Dashboard) (net_id : String) (d : Dict) :
    (configure_net_ssids db net_id d).2.1 =
      [ApiEvent.updateSsid net_id (Val.int 3) (assocErase d "number")] ∧
    assocGet (assocErase d "number") "number" = none ∧
    ∀ k, k ≠ "number" → assocGet (assocErase d "number") k = assocGet d k := by
  refine ⟨?_, assocGet_assocErase_self d "number",
    fun k hk => assocGet_assocErase_ne d "number" k hk⟩
  rw [configure_net_ssids_eq]
  cases db.updateNetworkWirelessSsid net_id (Val.int 3) (assocErase d "number") with
  | ok u => rfl
  | error e =>
    cases pyGet (assocErase d "number") "name" with
    | ok nm => rfl
    | error ke => rfl

/-- Witness for `configure_targets_slot_three` on the sample record. -/
theorem configure_targets_slot_three_witness :
    (configure_net_ssids sampleDb "N1" sampleGuest).2.1 =
      [ApiEvent.updateSsid "N1" (Val.int 3) (assocErase sampleGuest "number")] ∧
    assocGet (assocErase sampleGuest "number") "number" = none ∧
    assocGet (assocErase sampleGuest "number") "authMode" = assocGet sampleGuest "authMode" := by
  have h := configure_targets_slot_three sampleDb "N1" sampleGuest
  exact ⟨h.1, h.2.1, h.2.2 "authMode" (by decide)⟩

/-- C8: after `configure_net_ssids` returns (with `True` or `False`), the
shared record has lost its `number` key and kept every other field; the
function behaves identically whether or not the record carried a `number`
key on entry; and a further configuration of the already-stripped record
leaves it unchanged. -/
theorem configure_removes_number_key :
    (∀ (db : Dashboard) (net_id : String) (d : Dict) (b : Bool) (pd : Dict)
        (tr : List ApiEvent) (out : List String),
        configure_net_ssids db net_id d = (.ok (b, pd), tr, out) →
        pd = assocErase d "number" ∧ assocGet pd "number" = none ∧
          ∀ k, k ≠ "number" → assocGet pd k = assocGet d k)
    ∧ (∀ (db : Dashboard) (net_id : String) (d : Dict),
        configure_net_ssids db net_id (assocErase d "number") =
          configure_net_ssids db net_id d)
    ∧ (∀ (db : Dashboard) (net_id : String) (d : Dict) (b : Bool) (pd : Dict)
        (tr : List ApiEvent) (out : List String),
        configure_net_ssids db net_id d = (.ok (b, pd), tr, out) →
        ∀ (db2 : Dashboard) (net_id2 : String) (b2 : Bool) (pd2 : Dict)
          (tr2 : List ApiEvent) (out2 : List String),
          configure_net_ssids db2 net_id2 pd = (.ok (b2, pd2), tr2, out2) →
          pd2 = pd) := by
  refine ⟨?_, ?_, ?_⟩
  · intro db net_id d b pd tr out h
    have hpd := configure_ok_dict db net_id d b pd tr out h
    subst hpd
    exact ⟨rfl, assocGet_assocErase_self d "number",
      fun k hk => assocGet_assocErase_ne d "number" k hk⟩
  · intro db net_id d
    rw [configure_net_ssids_eq, configure_net_ssids_eq, assocErase_idem]
  · intro db net_id d b pd tr out h db2 net_id2 b2 pd2 tr2 out2 h2
    have hpd := configure_ok_dict db net_id d b pd tr out h
    have hpd2 := configure_ok_dict db2 net_id2 pd b2 pd2 tr2 out2 h2
    rw [hpd2, hpd, assocErase_idem]

/-- Witness for `configure_removes_number_key` on the sample record. -/
theorem configure_removes_number_key_witness :
    assocGet (assocErase sampleGuest "number") "number" = none ∧
    assocGet (assocErase sampleGuest "number") "psk" = assocGet sampleGuest "psk" ∧
    configure_net_ssids sampleDb "N1" (assocErase sampleGuest "number") =
      configure_net_ssids sampleDb "N1" sampleGuest := by
  have h := configure_removes_number_key
  have h0 : configure_net_ssids sampleDb "N1" sampleGuest =
      (.ok (true, assocErase sampleGuest "number"),
       [ApiEvent.updateSsid "N1" (Val.int 3) (assocErase sampleGuest "number")], []) := by
    decide
  have h1 := h.1 sampleDb "N1" sampleGuest true (assocErase sampleGuest "number") _ _ h0
  exact ⟨h1.2.1, h1.2.2 "psk" (by decide), h.2.1 sampleDb "N1" sampleGuest⟩

/-! Resolution lemmas. -/

theorem find_network_id_eq_find (net_name : String) (l : List Network) :
    find_network_id net_name l =
      (l.find? (fun nw => decide (nw.name = net_name))).map Network.id := by
  induction l with
  | nil => simp [find_network_id]
  | cons nw rest ih =>
    by_cases h : nw.name = net_name
    · simp [find_network_id, List.find?_cons_of_pos, h]
    · simp [find_network_id, List.find?_cons_of_neg, h, ih]

/-- C7: configured network name resolution is case-sensitive exact
matching: `get_network_id` returns the id of the first network of the full
organization list whose name equals the configured name character for
character, and returns `None` whenever no name matches exactly (in
particular when a name differs only in case). -/
theorem network_resolution_case_sensitive (db : Dashboard) (org_id n : String) :
    (get_network_id db org_id n).1 =
      ((db.getOrganizationNetworks org_id).find?
        (fun nw => decide (nw.name = n))).map Network.id ∧
    ((∀ nw ∈ db.getOrganizationNetworks org_id, nw.name ≠ n) →
      (get_network_id db org_id n).1 = none) := by
  constructor
  · exact find_network_id_eq_find n (db.getOrganizationNetworks org_id)
  · intro h
    have hfind : (db.getOrganizationNetworks org_id).find?
        (fun nw => decide (nw.name = n)) = none := by
      rw [List.find?_eq_none]
      intro nw hnw
      simpa using h nw hnw
    rw [show (get_network_id db org_id n).1 = _ from
      find_network_id_eq_find n (db.getOrganizationNetworks org_id), hfind]
    rfl

/-- Witness for `network_resolution_case_sensitive`: the exact name
resolves on the sample organization, the case-differing name does not. -/
theorem network_resolution_case_sensitive_witness :
    (get_network_id sampleDb "org" "Branch-A").1 = some "N1" ∧
    (get_network_id sampleDb "org" "branch-a").1 = none := by
  constructor
  · rw [(network_resolution_case_sensitive sampleDb "org" "Branch-A").1]
    decide
  · exact (network_resolution_case_sensitive sampleDb "org" "branch-a").2 (by decide)

/-! Tag-matching monotonicity. -/

theorem mem_setAdd (s : List String) (y x : String) :
    x ∈ setAdd s y ↔ x ∈ s ∨ x = y := by
  by_cases h : y ∈ s
  · simp only [setAdd, if_pos h]
    constructor
    · exact fun hx => Or.inl hx
    · rintro (hx | rfl)
      · exact hx
      · exact h
  · simp [setAdd, if_neg h]

theorem ap_ssids_loop_mono (db1 db2 : Dashboard) (org net X : String)
    (hX : ∀ a ∈ db1.getOrganizationDevices org net X,
      a ∈ db2.getOrganizationDevices org net X)
    (hoth : ∀ t, t ≠ X →
      db2.getOrganizationDevices org net t = db1.getOrganizationDevices org net t) :
    ∀ (ssids : List Dict) (a1 a2 : List String),
      (∀ x ∈ a1, x ∈ a2) → (∀ x ∈ a2, x ∈ a1 ∨ x = X) →
      ∀ s1 tr out, ap_ssids_loop db1 org net a1 ssids = (.ok s1, tr, out) →
        ∃ s2, ap_ssids_loop db2 org net a2 ssids = (.ok s2, tr, out) ∧
          (∀ x ∈ s1, x ∈ s2) ∧ (∀ x ∈ s2, x ∈ s1 ∨ x = X) := by
  intro ssids
  induction ssids with
  | nil =>
    intro a1 a2 inv1 inv2 s1 tr out h
    simp only [ap_ssids_loop, Prod.mk.injEq, Except.ok.injEq] at h
    obtain ⟨h1, h2, h3⟩ := h
    subst h1 h2 h3
    exact ⟨a2, rfl, inv1, inv2⟩
  | cons s rest ih =>
    intro a1 a2 inv1 inv2 s1 tr out h
    cases hget : assocGet s "name" with
    | none =>
      simp only [ap_ssids_loop, pyGet, hget] at h
      simp at h
    | some tv =>
      cases tv with
      | int n =>
        simp only [ap_ssids_loop, pyGet, hget, valStr] at h
        simp at h
      | bool b =>
        simp only [ap_ssids_loop, pyGet, hget, valStr] at h
        simp at h
      | str tag =>
        have hacc : (∀ x ∈ (if (db1.getOrganizationDevices org net tag).isEmpty
              then a1 else setAdd a1 tag), x ∈
              (if (db2.getOrganizationDevices org net tag).isEmpty
              then a2 else setAdd a2 tag)) ∧
            (∀ x ∈ (if (db2.getOrganizationDevices org net tag).isEmpty
              then a2 else setAdd a2 tag), x ∈
              (if (db1.getOrganizationDevices org net tag).isEmpty
              then a1 else setAdd a1 tag) ∨ x = X) := by
          by_cases htag : tag = X
          · subst htag
            by_cases h1e : (db1.getOrganizationDevices org net tag).isEmpty
            · by_cases h2e : (db2.getOrganizationDevices org net tag).isEmpty
              · simp only [if_pos h1e, if_pos h2e]
                exact ⟨inv1, inv2⟩
              · simp only [if_pos h1e, if_neg h2e]
                constructor
                · intro x hx
                  exact (mem_setAdd a2 tag x).mpr (Or.inl (inv1 x hx))
                · intro x hx
                  rcases (mem_setAdd a2 tag x).mp hx with hx2 | hx2
                  · exact inv2 x hx2
                  · exact Or.inr hx2
            · have h2e : ¬ (db2.getOrganizationDevices org net tag).isEmpty = true := by
                intro h2e
                have h2nil : db2.getOrganizationDevices org net tag = [] :=
                  List.isEmpty_iff.mp h2e
                have h1nil : db1.getOrganizationDevices org net tag = [] := by
                  cases hcase : db1.getOrganizationDevices org net tag with
                  | nil => rfl
                  | cons a l =>
                    have ha : a ∈ db1.getOrganizationDevices org net tag := by
                      rw [hcase]
                      exact List.mem_cons_self _ _
                    have hin := hX a ha
                    rw [h2nil] at hin
                    simp at hin
                exact h1e (by simp [h1nil])
              simp only [if_neg h1e, if_neg h2e]
              constructor
              · intro x hx
                rcases (mem_setAdd a1 tag x).mp hx with hx2 | hx2
                · exact (mem_setAdd a2 tag x).mpr (Or.inl (inv1 x hx2))
                · exact (mem_setAdd a2 tag x).mpr (Or.inr hx2)
              · intro x hx
                rcases (mem_setAdd a2 tag x).mp hx with hx2 | hx2
                · rcases inv2 x hx2 with hx3 | hx3
                  · exact Or.inl ((mem_setAdd a1 tag x).mpr (Or.inl hx3))
                  · exact Or.inr hx3
                · exact Or.inr hx2
          · rw [hoth tag htag]
            by_cases h1e : (db1.getOrganizationDevices org net tag).isEmpty
            · simp only [if_pos h1e]
              exact ⟨inv1, inv2⟩
            · simp only [if_neg h1e]
              constructor
              · intro x hx
                rcases (mem_setAdd a1 tag x).mp hx with hx2 | hx2
                · exact (mem_setAdd a2 tag x).mpr (Or.inl (inv1 x hx2))
                · exact (mem_setAdd a2 tag x).mpr (Or.inr hx2)
              · intro x hx
                rcases (mem_setAdd a2 tag x).mp hx with hx2 | hx2
                · rcases inv2 x hx2 with hx3 | hx3
                  · exact Or.inl ((mem_setAdd a1 tag x).mpr (Or.inl hx3))
                  · exact Or.inr hx3
                · exact Or.inl ((mem_setAdd a1 tag x).mpr (Or.inr hx2))
        simp only [ap_ssids_loop, pyGet, hget, valStr] at h
        cases hrec : ap_ssids_loop db1 org net
            (if (db1.getOrganizationDevices org net tag).isEmpty
              then a1 else setAdd a1 tag) rest with
        | mk r1 p1 =>
          cases p1 with
          | mk tr1 out1 =>
            rw [hrec] at h
            simp only [Prod.mk.injEq] at h
            obtain ⟨hr1, htr, hout⟩ := h
            subst htr hout
            rcases ih _ _ hacc.1 hacc.2 s1 tr1 out1 (by rw [hrec, hr1]) with
              ⟨s2, hs2, hsub1, hsub2⟩
            refine ⟨s2, ?_, hsub1, hsub2⟩
            simp only [ap_ssids_loop, pyGet, hget, valStr]
            rw [hs2]

/-- C9: tag matching is monotonic.  Enlarging the device query result for
the tag `X` (and leaving every other tag query unchanged) can only add `X`
to the matched set of a network: every previous match is preserved, and
any new element of the matched set is `X` itself. -/
theorem tag_matching_monotone (db1 db2 : Dashboard) (org net X : String)
    (ssids : List Dict)
    (hX : ∀ a ∈ db1.getOrganizationDevices org net X,
      a ∈ db2.getOrganizationDevices org net X)
    (hoth : ∀ t, t ≠ X →
      db2.getOrganizationDevices org net t = db1.getOrganizationDevices org net t)
    (s1 : List String) (tr : List ApiEvent) (out : List String)
    (h : get_ap_ssids db1 org net ssids = (.ok s1, tr, out)) :
    ∃ s2, get_ap_ssids db2 org net ssids = (.ok s2, tr, out) ∧
      (∀ x ∈ s1, x ∈ s2) ∧ (∀ x ∈ s2, x ∈ s1 ∨ x = X) := by
  exact ap_ssids_loop_mono db1 db2 org net X hX hoth ssids [] []
    (by simp) (by simp) s1 tr out h

/-- Witness for `tag_matching_monotone`: adding a `Staff`-tagged access
point to the sample network keeps the `Guest` match and can only add
`Staff`. -/
theorem tag_matching_monotone_witness :
    ∃ s2, get_ap_ssids sampleDbMore "org" "N1" [sampleGuest, sampleStaff] =
        (.ok s2,
         [ApiEvent.getDevices "org" "N1" "Guest",
          ApiEvent.getDevices "org" "N1" "Staff"],
         ["Retrieving all APs with the tag Guest",
          "Retrieving all APs with the tag Staff"]) ∧
      (∀ x ∈ ["Guest"], x ∈ s2) ∧ (∀ x ∈ s2, x ∈ ["Guest"] ∨ x = "Staff") := by
  refine tag_matching_monotone sampleDb sampleDbMore "org" "N1" "Staff"
    [sampleGuest, sampleStaff] (by decide) ?_ ["Guest"] _ _ (by decide)
  intro t ht
  by_cases hg : t = "Guest" <;> simp [sampleDbMore, sampleDb, hg, ht]

/-! PSK rotation loop. -/

theorem change_ssid_psk_trace (db : Dashboard) (nid : String) (numv : Val)
    (pw : String) :
    (change_ssid_psk db nid numv pw).2.1 =
      [ApiEvent.updateSsid nid numv [("authMode", .str "psk"), ("psk", .str pw)]] := by
  simp only [change_ssid_psk]
  cases db.updateNetworkWirelessSsid nid numv
      [("authMode", .str "psk"), ("psk", .str pw)] with
  | ok u => rfl
  | error e => rfl

/-- C10: malformed input at the rotation prompt is not caught by the loop.
A reply that neither lowercases to `"n"` nor parses as an integer raises
`ValueError`, and an integer reply whose index is out of the bounds of the
PSK list raises `IndexError`; either exception propagates out of the loop
(and hence out of `main`, whose final phase the loop is), ending the run
with no update issued. -/
theorem psk_loop_malformed_input_uncaught :
    (∀ (db : Dashboard) (n2n : List (String × String)) (l : List Dict)
        (idx : String) (rest : List String) (e : PyErr),
        strLower idx ≠ "n" → pyInt idx = .error e →
        psk_loop db n2n l (idx :: rest) = (.error e, [], [])) ∧
    (∀ (db : Dashboard) (n2n : List (String × String)) (l : List Dict)
        (idx : String) (rest : List String) (i : Int),
        strLower idx ≠ "n" → pyInt idx = .ok i → pyIndex l i = .error .indexError →
        psk_loop db n2n l (idx :: rest) = (.error .indexError, [], [])) := by
  constructor
  · intro db n2n l idx rest e hn he
    simp only [psk_loop, if_neg hn, he]
  · intro db n2n l idx rest i hn hi hix
    simp only [psk_loop, if_neg hn, hi, hix]

/-- Witness for `psk_loop_malformed_input_uncaught`: a non-integer reply
and an out-of-range index both escape the loop as exceptions. -/
theorem psk_loop_malformed_input_uncaught_witness :
    psk_loop sampleDb [] [] ["oops"] = (.error (.valueError "oops"), [], []) ∧
    psk_loop sampleDb [] [] ["5"] = (.error .indexError, [], []) := by
  constructor
  · exact psk_loop_malformed_input_uncaught.1 sampleDb [] [] "oops" []
      (.valueError "oops") (by decide) (by decide)
  · exact psk_loop_malformed_input_uncaught.2 sampleDb [] [] "5" [] 5
      (by decide) (by decide) (by decide)

/-- C6: the rotation loop returns cleanly exactly on a reply that matches
`"n"` case-insensitively; on a reply resolving to a valid entry it reads a
password, submits the update `authMode="psk", psk=<password>` to exactly
the selected entry's SSID number in the selected entry's network, reports
the outcome after any error log of the update, and returns to the prompt
(the run continues as the loop on the remaining input). -/
theorem psk_loop_terminates_and_applies :
    (∀ (db : Dashboard) (n2n : List (String × String)) (l : List Dict)
        (idx : String) (rest : List String), strLower idx = "n" →
        psk_loop db n2n l (idx :: rest) = (.ok (), [], [])) ∧
    (∀ (db : Dashboard) (n2n : List (String × String)) (l : List Dict)
        (idx : String) (rest : List String), strLower idx ≠ "n" →
        psk_loop db n2n l (idx :: rest) ≠ (.ok (), [], [])) ∧
    (∀ (db : Dashboard) (n2n : List (String × String)) (l : List Dict)
        (idx : String) (i : Int) (r : Dict) (numv namev : Val) (nid nn pw : String)
        (rest : List String),
        strLower idx ≠ "n" → pyInt idx = .ok i → pyIndex l i = .ok r →
        assocGet r "number" = some numv → assocGet r "name" = some namev →
        assocGet r "net_id" = some (.str nid) → assocGet n2n nid = some nn →
        psk_loop db n2n l (idx :: pw :: rest) =
          ((psk_loop db n2n l rest).1,
           ApiEvent.updateSsid nid numv [("authMode", .str "psk"), ("psk", .str pw)] ::
             (psk_loop db n2n l rest).2.1,
           (change_ssid_psk db nid numv pw).2.2 ++
             [if (change_ssid_psk db nid numv pw).1 then
                valText namev ++ " of network " ++ nn ++ " configured with a new psk"
              else "There was an issue configuring a new psk for " ++ valText namev ++
                " of network " ++ nn] ++ (psk_loop db n2n l rest).2.2)) := by
  refine ⟨?_, ?_, ?_⟩
  · intro db n2n l idx rest hn
    simp only [psk_loop, if_pos hn]
  · intro db n2n l idx rest hn
    simp only [psk_loop, if_neg hn]
    cases hpi : pyInt idx with
    | error e => simp [hpi]
    | ok i =>
      cases hr : pyIndex l i with
      | error e => simp [hpi, hr]
      | ok r =>
        cases hnum : pyGet r "number" with
        | error e => simp [hpi, hr, hnum]
        | ok numv =>
          cases hname : pyGet r "name" with
          | error e => simp [hpi, hr, hnum, hname]
          | ok namev =>
            cases hnid : pyGet r "net_id" with
            | error e => simp [hpi, hr, hnum, hname, hnid]
            | ok nidv =>
              cases hvs : valStr nidv with
              | error e => simp [hpi, hr, hnum, hname, hnid, hvs]
              | ok nid2 =>
                cases hn2n : assocGet n2n nid2 with
                | none => simp [hpi, hr, hnum, hname, hnid, hvs, hn2n]
                | some nn =>
                  cases rest with
                  | nil => simp [hpi, hr, hnum, hname, hnid, hvs, hn2n]
                  | cons pw rest2 =>
                    simp [hpi, hr, hnum, hname, hnid, hvs, hn2n,
                      change_ssid_psk_trace]
  · intro db n2n l idx i r numv namev nid nn pw rest hn hi hr hnum hname hnid hn2n
    have htr := change_ssid_psk_trace db nid numv pw
    simp only [psk_loop, if_neg hn, hi, hr, pyGet, hnum, hname, hnid, valStr, hn2n]
    cases hch : change_ssid_psk db nid numv pw with
    | mk c p =>
      cases p with
      | mk tr1 log =>
        rw [hch] at htr
        simp only [] at htr
        cases hrec : psk_loop db n2n l rest with
        | mk r2 q =>
          cases q with
          | mk tr2 out2 =>
            simp [htr, hch, hrec]

/-- Witness for `psk_loop_terminates_and_applies` on the sample rotation
list: `"N"` ends the loop, `"0"` does not end it cleanly without an
update, and a valid selection submits the update and loops. -/
theorem psk_loop_terminates_and_applies_witness :
    psk_loop sampleDb [("N1", "Branch-A")] [sampleRot] ["N"] = (.ok (), [], []) ∧
    psk_loop sampleDb [("N1", "Branch-A")] [sampleRot] ["0"] ≠ (.ok (), [], []) ∧
    psk_loop sampleDb [("N1", "Branch-A")] [sampleRot] ["0", "newpass", "n"] =
      ((psk_loop sampleDb [("N1", "Branch-A")] [sampleRot] ["n"]).1,
       ApiEvent.updateSsid "N1" (Val.int 0)
           [("authMode", .str "psk"), ("psk", .str "newpass")] ::
         (psk_loop sampleDb [("N1", "Branch-A")] [sampleRot] ["n"]).2.1,
       (change_ssid_psk sampleDb "N1" (Val.int 0) "newpass").2.2 ++
         [if (change_ssid_psk sampleDb "N1" (Val.int 0) "newpass").1 then
            valText (.str "Guest") ++ " of network " ++ "Branch-A" ++
              " configured with a new psk"
          else "There was an issue configuring a new psk for " ++
            valText (.str "Guest") ++ " of network " ++ "Branch-A"] ++
         (psk_loop sampleDb [("N1", "Branch-A")] [sampleRot] ["n"]).2.2) := by
  refine ⟨?_, ?_, ?_⟩
  · exact psk_loop_terminates_and_applies.1 sampleDb [("N1", "Branch-A")] [sampleRot]
      "N" [] (by decide)
  · exact psk_loop_terminates_and_applies.2.1 sampleDb [("N1", "Branch-A")] [sampleRot]
      "0" [] (by decide)
  · exact psk_loop_terminates_and_applies.2.2 sampleDb [("N1", "Branch-A")] [sampleRot]
      "0" 0 sampleRot (Val.int 0) (Val.str "Guest") "N1" "Branch-A" "newpass" ["n"]
      (by decide) (by decide) (by decide) (by decide) (by decide) (by decide) (by decide)

/-! Resolution gate of `main`. -/

theorem exists_first_failure (P : String → Prop) :
    ∀ (names : List String), ¬ (∀ n ∈ names, P n) →
      ∃ pre nf post, names = pre ++ nf :: post ∧ (∀ n ∈ pre, P n) ∧ ¬ P nf := by
  intro names
  induction names with
  | nil =>
    intro h
    exact absurd (by simp) h
  | cons n rest ih =>
    intro h
    by_cases hn : P n
    · have hrest : ¬ (∀ m ∈ rest, P m) := by
        intro hall
        refine h ?_
        intro m hm
        rcases List.mem_cons.mp hm with hm2 | hm2
        · rw [hm2]; exact hn
        · exact hall m hm2
      rcases ih hrest with ⟨pre, nf, post, hsplit, hpre, hnf⟩
      refine ⟨n :: pre, nf, post, by simp [hsplit], ?_, hnf⟩
      intro m hm
      rcases List.mem_cons.mp hm with hm2 | hm2
      · rw [hm2]; exact hn
      · exact hpre m hm2
    · exact ⟨[], n, rest, rfl, by simp, hn⟩

theorem resolve_nets_first_fail (db : Dashboard) (org_id : String) :
    ∀ (pre : List String) (nf : String) (post : List String)
      (acc : List (String × String)),
      (∀ n ∈ pre, (find_network_id n (db.getOrganizationNetworks org_id)).isSome) →
      find_network_id nf (db.getOrganizationNetworks org_id) = none →
      resolve_nets db org_id acc (pre ++ nf :: post) =
        (none, (pre ++ [nf]).map (fun _ => ApiEvent.getNetworks org_id),
         ["There was an error trying to find the network with name " ++ nf,
          "Aborting program..."]) := by
  intro pre
  induction pre with
  | nil =>
    intro nf post acc hpre hnf
    simp [resolve_nets, get_network_id, hnf]
  | cons p pre2 ih =>
    intro nf post acc hpre hnf
    rcases Option.isSome_iff_exists.mp (hpre p (by simp)) with ⟨id, hid⟩
    have ih2 := ih nf post (assocSet acc id p)
      (fun m hm => hpre m (by simp [hm])) hnf
    simp [resolve_nets, get_network_id, hid, ih2]

theorem find_network_id_mem (n : String) (l : List Network) (i : String)
    (h : find_network_id n l = some i) : ∃ nw ∈ l, nw.name = n ∧ nw.id = i := by
  induction l with
  | nil => simp [find_network_id] at h
  | cons nw rest ih =>
    by_cases hn : nw.name = n
    · simp [find_network_id, hn] at h
      exact ⟨nw, by simp, hn, h⟩
    · simp only [find_network_id, if_neg hn] at h
      rcases ih h with ⟨nw2, hmem, hname, hid⟩
      exact ⟨nw2, by simp [hmem], hname, hid⟩

/-- C1: for every list of configured network names (over an organization
whose network identifiers are distinct, the data-model identity of
section 3), either every configured name resolves and distinct names
receive distinct network identifiers, or `main` prints an error naming the
first unresolved name followed by `Aborting program...` and returns having
issued only `getOrganizationNetworks` calls — no SSID fetch, no SSID
configuration and no PSK update appears in the API trace. -/
theorem main_resolution_gate (db : Dashboard) (org_id : String)
    (net_names inputs : List String)
    (hids : ((db.getOrganizationNetworks org_id).map Network.id).Nodup) :
    ((∀ n ∈ net_names,
        (find_network_id n (db.getOrganizationNetworks org_id)).isSome) ∧
      ∀ n1 ∈ net_names, ∀ n2 ∈ net_names,
        find_network_id n1 (db.getOrganizationNetworks org_id) =
          find_network_id n2 (db.getOrganizationNetworks org_id) → n1 = n2)
    ∨ (∃ pre nf post, net_names = pre ++ nf :: post ∧
        (∀ n ∈ pre, (find_network_id n (db.getOrganizationNetworks org_id)).isSome) ∧
        find_network_id nf (db.getOrganizationNetworks org_id) = none ∧
        main db org_id net_names inputs =
          (.ok (), (pre ++ [nf]).map (fun _ => ApiEvent.getNetworks org_id),
           ["There was an error trying to find the network with name " ++ nf,
            "Aborting program..."])) := by
  by_cases hall : ∀ n ∈ net_names,
      (find_network_id n (db.getOrganizationNetworks org_id)).isSome
  · left
    refine ⟨hall, ?_⟩
    intro n1 h1 n2 h2 heq
    rcases Option.isSome_iff_exists.mp (hall n1 h1) with ⟨i, hi1⟩
    have hi2 : find_network_id n2 (db.getOrganizationNetworks org_id) = some i := by
      rw [← heq]
      exact hi1
    rcases find_network_id_mem n1 _ i hi1 with ⟨nw1, hm1, hname1, hid1⟩
    rcases find_network_id_mem n2 _ i hi2 with ⟨nw2, hm2, hname2, hid2⟩
    have hnw : nw1 = nw2 :=
      List.inj_on_of_nodup_map hids hm1 hm2 (by rw [hid1, hid2])
    rw [← hname1, ← hname2, hnw]
  · right
    rcases exists_first_failure
      (fun n => (find_network_id n (db.getOrganizationNetworks org_id)).isSome)
      net_names hall with ⟨pre, nf, post, hsplit, hpre, hnf⟩
    have hnone : find_network_id nf (db.getOrganizationNetworks org_id) = none :=
      Option.not_isSome_iff_eq_none.mp hnf
    refine ⟨pre, nf, post, hsplit, hpre, hnone, ?_⟩
    have hres := resolve_nets_first_fail db org_id pre nf post [] hpre hnone
    rw [hsplit]
    simp only [main, hres]

/-- Witness for `main_resolution_gate`: on the sample organization the list
`["Branch-A", "Nope"]` hits the abort branch at `Nope`. -/
theorem main_resolution_gate_witness :
    ((sampleDb.getOrganizationNetworks "org").map Network.id).Nodup ∧
    (((∀ n ∈ ["Branch-A", "Nope"],
        (find_network_id n (sampleDb.getOrganizationNetworks "org")).isSome) ∧
      ∀ n1 ∈ ["Branch-A", "Nope"], ∀ n2 ∈ ["Branch-A", "Nope"],
        find_network_id n1 (sampleDb.getOrganizationNetworks "org") =
          find_network_id n2 (sampleDb.getOrganizationNetworks "org") → n1 = n2)
    ∨ (∃ pre nf post, ["Branch-A", "Nope"] = pre ++ nf :: post ∧
        (∀ n ∈ pre,
          (find_network_id n (sampleDb.getOrganizationNetworks "org")).isSome) ∧
        find_network_id nf (sampleDb.getOrganizationNetworks "org") = none ∧
        main sampleDb "org" ["Branch-A", "Nope"] [] =
          (.ok (), (pre ++ [nf]).map (fun _ => ApiEvent.getNetworks "org"),
           ["There was an error trying to find the network with name " ++ nf,
            "Aborting program..."]))) :=
  ⟨by decide, main_resolution_gate sampleDb "org" ["Branch-A", "Nope"] [] (by decide)⟩

/-! Per-item error isolation. -/

theorem configure_with_name (db : Dashboard) (net_id : String) (d : Dict)
    (h : (assocGet d "name").isSome) :
    ∃ b out, configure_net_ssids db net_id d =
      (.ok (b, assocErase d "number"),
       [ApiEvent.updateSsid net_id (Val.int 3) (assocErase d "number")], out) := by
  rcases Option.isSome_iff_exists.mp h with ⟨nm, hnm⟩
  have hpg : pyGet (assocErase d "number") "name" = .ok nm := by
    simp [pyGet, assocGet_assocErase_ne d "number" "name" (by decide), hnm]
  rw [configure_net_ssids_eq]
  cases db.updateNetworkWirelessSsid net_id (Val.int 3) (assocErase d "number") with
  | ok u => exact ⟨true, [], rfl⟩
  | error e =>
    refine ⟨false, ["There was an issue configuring the SSID " ++ valText nm ++
      " for the following reason:", e], ?_⟩
    simp only [hpg]

theorem configure_one_net_ok (db1 db2 : Dashboard) (net_name net_id : String) :
    ∀ (names : List String) (sd : List (String × Dict)),
      (∀ n ∈ names, (assocGet sd n).isSome) →
      (∀ p ∈ sd, (assocGet p.2 "name").isSome) →
      ∃ sd2 tr out1 out2,
        configure_one_net db1 net_name net_id sd names = (.ok sd2, tr, out1) ∧
        configure_one_net db2 net_name net_id sd names = (.ok sd2, tr, out2) ∧
        tr.length = names.length ∧
        (∀ n, (assocGet sd n).isSome → (assocGet sd2 n).isSome) ∧
        (∀ p ∈ sd2, (assocGet p.2 "name").isSome) := by
  intro names
  induction names with
  | nil =>
    intro sd hkeys hnames
    exact ⟨sd, [], [], [], rfl, rfl, rfl, fun n h => h, hnames⟩
  | cons nm rest ih =>
    intro sd hkeys hnames
    rcases Option.isSome_iff_exists.mp (hkeys nm (by simp)) with ⟨d, hd⟩
    have hdname : (assocGet d "name").isSome :=
      hnames (nm, d) (assocGet_mem sd nm d hd)
    rcases configure_with_name db1 net_id d hdname with ⟨b1, o1, hc1⟩
    rcases configure_with_name db2 net_id d hdname with ⟨b2, o2, hc2⟩
    have hkeys2 : ∀ n ∈ rest,
        (assocGet (assocSet sd nm (assocErase d "number")) n).isSome :=
      fun n hn => isSome_assocGet_assocSet sd nm n _ (hkeys n (by simp [hn]))
    have hnames2 : ∀ p ∈ assocSet sd nm (assocErase d "number"),
        (assocGet p.2 "name").isSome := by
      intro p hp
      rcases mem_assocSet sd nm _ p hp with h2 | h2
      · rw [h2]
        have hnn : assocGet (assocErase d "number") "name" = assocGet d "name" :=
          assocGet_assocErase_ne d "number" "name" (by decide)
        simpa [hnn] using hdname
      · exact hnames p h2
    rcases ih (assocSet sd nm (assocErase d "number")) hkeys2 hnames2 with
      ⟨sd2, tr, out1, out2, hh1, hh2, hlen, hpres, hnames3⟩
    refine ⟨sd2,
      ApiEvent.updateSsid net_id (Val.int 3) (assocErase d "number") :: tr,
      o1 ++ [if b1 = true then net_name ++ " configured with ssid " ++ nm
             else "There was an issue configuring ssid " ++ nm ++ " on " ++ net_name]
        ++ out1,
      o2 ++ [if b2 = true then net_name ++ " configured with ssid " ++ nm
             else "There was an issue configuring ssid " ++ nm ++ " on " ++ net_name]
        ++ out2, ?_, ?_, ?_, ?_, hnames3⟩
    · simp only [configure_one_net, hd, hc1, hh1, List.singleton_append]
    · simp only [configure_one_net, hd, hc2, hh2, List.singleton_append]
    · simp [hlen]
    · intro n hn
      exact hpres n (isSome_assocGet_assocSet sd nm n _ hn)

theorem configure_loop_ok (db1 db2 : Dashboard) :
    ∀ (items : List (String × List String)) (n2n : List (String × String))
      (sd : List (String × Dict)),
      (∀ q ∈ items, (assocGet n2n q.1).isSome) →
      (∀ q ∈ items, ∀ n ∈ q.2, (assocGet sd n).isSome) →
      (∀ p ∈ sd, (assocGet p.2 "name").isSome) →
      ∃ sd2 tr out1 out2,
        configure_loop db1 n2n sd items = (.ok sd2, tr, out1) ∧
        configure_loop db2 n2n sd items = (.ok sd2, tr, out2) ∧
        tr.length = (items.map (fun q => q.2.length)).sum := by
  intro items
  induction items with
  | nil =>
    intro n2n sd h1 h2 h3
    exact ⟨sd, [], [], [], rfl, rfl, rfl⟩
  | cons q rest ih =>
    obtain ⟨net_id, names⟩ := q
    intro n2n sd h1 h2 h3
    rcases Option.isSome_iff_exists.mp (h1 (net_id, names) (by simp)) with
      ⟨net_name, hn2n⟩
    rcases configure_one_net_ok db1 db2 net_name net_id names sd
      (h2 (net_id, names) (by simp)) h3 with
      ⟨sdm, tr1, o1, o2, hc1, hc2, hlen1, hpres, hnames2⟩
    have h2b : ∀ q2 ∈ rest, ∀ n ∈ q2.2, (assocGet sdm n).isSome :=
      fun q2 hq n hn => hpres n (h2 q2 (by simp [hq]) n hn)
    rcases ih n2n sdm (fun q2 hq => h1 q2 (by simp [hq])) h2b hnames2 with
      ⟨sd2, tr2, oo1, oo2, hl1, hl2, hlen2⟩
    refine ⟨sd2, tr1 ++ tr2,
      (("Configuring the SSIDs of the " ++ net_name ++ " network") :: o1) ++ oo1,
      (("Configuring the SSIDs of the " ++ net_name ++ " network") :: o2) ++ oo2,
      ?_, ?_, ?_⟩
    · simp only [configure_loop, hn2n, hc1, hl1]
    · simp only [configure_loop, hn2n, hc2, hl2]
    · simp [hlen1, hlen2]

/-- Counterexample to C3 as stated: the call-site log of a failing PSK
update does not contain the SSID name.  In the sample network the SSID in
slot `0` of `N1` is named `Guest`; when its PSK update raises
`bad request`, `change_ssid_psk` returns `False` and logs exactly the
generic message and the error text, and no logged line contains the
substring `Guest`. -/
theorem per_item_error_isolated_counterexample :
    change_ssid_psk sampleDbFail "N1" (Val.int 0) "pw" =
      (false,
       [ApiEvent.updateSsid "N1" (Val.int 0)
          [("authMode", Val.str "psk"), ("psk", Val.str "pw")]],
       ["There was an issue assigning a new password to the SSID for the following reason:",
        "bad request"]) ∧
    (∀ line ∈ (change_ssid_psk sampleDbFail "N1" (Val.int 0) "pw").2.2,
      hasSub "Guest" line = false) := by
  decide

/-- C3 (amended): exceptions of the SDK update call are caught per item
and surface as `False`.  A failing SSID configuration is logged at the
call site with the SSID name and the error text; a failing PSK update is
logged at the call site with a generic message and the error text only —
the SSID name appears in the caller's subsequent failure line, which does
not carry the error text.  Processing of the remaining items continues in
both places: the configuration batch issues the same update calls (one
per matched SSID of each network) whatever the update outcomes — for any
two dashboards the step-6 loop returns normally with identical traces and
catalog — and after a failed PSK update the rotation loop prints the
generic log, then the name-bearing failure line, and returns to the
prompt, continuing with the remaining input. -/
theorem per_item_error_isolated :
    (∀ (db : Dashboard) (net_id : String) (d : Dict) (nm : Val) (e : String),
        assocGet d "name" = some nm →
        db.updateNetworkWirelessSsid net_id (Val.int 3) (assocErase d "number") =
          .error e →
        configure_net_ssids db net_id d =
          (.ok (false, assocErase d "number"),
           [ApiEvent.updateSsid net_id (Val.int 3) (assocErase d "number")],
           ["There was an issue configuring the SSID " ++ valText nm ++
              " for the following reason:", e]))
    ∧ (∀ (db : Dashboard) (net_id : String) (numv : Val) (pw : String) (e : String),
        db.updateNetworkWirelessSsid net_id numv
            [("authMode", .str "psk"), ("psk", .str pw)] = .error e →
        change_ssid_psk db net_id numv pw =
          (false,
           [ApiEvent.updateSsid net_id numv
              [("authMode", .str "psk"), ("psk", .str pw)]],
           ["There was an issue assigning a new password to the SSID for the following reason:",
            e]))
    ∧ (∀ (db1 db2 : Dashboard) (items : List (String × List String))
        (n2n : List (String × String)) (sd : List (String × Dict)),
        (∀ q ∈ items, (assocGet n2n q.1).isSome) →
        (∀ q ∈ items, ∀ n ∈ q.2, (assocGet sd n).isSome) →
        (∀ p ∈ sd, (assocGet p.2 "name").isSome) →
        ∃ sd2 tr out1 out2,
          configure_loop db1 n2n sd items = (.ok sd2, tr, out1) ∧
          configure_loop db2 n2n sd items = (.ok sd2, tr, out2) ∧
          tr.length = (items.map (fun q => q.2.length)).sum)
    ∧ (∀ (db : Dashboard) (n2n : List (String × String)) (l : List Dict)
        (idx : String) (i : Int) (r : Dict) (numv namev : Val)
        (nid nn pw : String) (rest : List String) (e : String),
        strLower idx ≠ "n" → pyInt idx = .ok i → pyIndex l i = .ok r →
        assocGet r "number" = some numv → assocGet r "name" = some namev →
        assocGet r "net_id" = some (.str nid) → assocGet n2n nid = some nn →
        db.updateNetworkWirelessSsid nid numv
            [("authMode", .str "psk"), ("psk", .str pw)] = .error e →
        psk_loop db n2n l (idx :: pw :: rest) =
          ((psk_loop db n2n l rest).1,
           ApiEvent.updateSsid nid numv
               [("authMode", .str "psk"), ("psk", .str pw)] ::
             (psk_loop db n2n l rest).2.1,
           ["There was an issue assigning a new password to the SSID for the following reason:",
            e] ++
             ["There was an issue configuring a new psk for " ++ valText namev ++
                " of network " ++ nn] ++
             (psk_loop db n2n l rest).2.2)) := by
  refine ⟨?_, ?_, ?_, ?_⟩
  · intro db net_id d nm e hnm hupd
    have hpg : pyGet (assocErase d "number") "name" = .ok nm := by
      simp [pyGet, assocGet_assocErase_ne d "number" "name" (by decide), hnm]
    rw [configure_net_ssids_eq]
    simp only [hupd, hpg]
  · intro db net_id numv pw e hupd
    simp only [change_ssid_psk, hupd]
  · intro db1 db2 items n2n sd h1 h2 h3
    exact configure_loop_ok db1 db2 items n2n sd h1 h2 h3
  · intro db n2n l idx i r numv namev nid nn pw rest e hn hi hr hnum hname hnid hn2n hupd
    have hch : change_ssid_psk db nid numv pw =
        (false,
         [ApiEvent.updateSsid nid numv
            [("authMode", .str "psk"), ("psk", .str pw)]],
         ["There was an issue assigning a new password to the SSID for the following reason:",
          e]) := by
      simp only [change_ssid_psk, hupd]
    simp only [psk_loop, if_neg hn, hi, hr, pyGet, hnum, hname, hnid, valStr, hn2n, hch]
    cases hrec : psk_loop db n2n l rest with
    | mk r2 q =>
      cases q with
      | mk tr2 out2 =>
        simp [hrec]

/-- Witness for `per_item_error_isolated` on the sample data, with the
dashboard whose update calls raise `bad request`. -/
theorem per_item_error_isolated_witness :
    configure_net_ssids sampleDbFail "N1" sampleGuest =
      (.ok (false, assocErase sampleGuest "number"),
       [ApiEvent.updateSsid "N1" (Val.int 3) (assocErase sampleGuest "number")],
       ["There was an issue configuring the SSID " ++ valText (.str "Guest") ++
          " for the following reason:", "bad request"]) ∧
    change_ssid_psk sampleDbFail "N1" (Val.int 0) "pw" =
      (false,
       [ApiEvent.updateSsid "N1" (Val.int 0)
          [("authMode", .str "psk"), ("psk", .str "pw")]],
       ["There was an issue assigning a new password to the SSID for the following reason:",
        "bad request"]) ∧
    (∃ sd2 tr out1 out2,
      configure_loop sampleDb [("N1", "Branch-A")] [("Guest", sampleGuest)]
          [("N1", ["Guest"])] = (.ok sd2, tr, out1) ∧
      configure_loop sampleDbFail [("N1", "Branch-A")] [("Guest", sampleGuest)]
          [("N1", ["Guest"])] = (.ok sd2, tr, out2) ∧
      tr.length = ([("N1", ["Guest"])].map
        (fun q => q.2.length)).sum) ∧
    psk_loop sampleDbFail [("N1", "Branch-A")] [sampleRot] ["0", "pw", "n"] =
      ((psk_loop sampleDbFail [("N1", "Branch-A")] [sampleRot] ["n"]).1,
       ApiEvent.updateSsid "N1" (Val.int 0)
           [("authMode", .str "psk"), ("psk", .str "pw")] ::
         (psk_loop sampleDbFail [("N1", "Branch-A")] [sampleRot] ["n"]).2.1,
       ["There was an issue assigning a new password to the SSID for the following reason:",
        "bad request"] ++
         ["There was an issue configuring a new psk for " ++ valText (.str "Guest") ++
            " of network " ++ "Branch-A"] ++
         (psk_loop sampleDbFail [("N1", "Branch-A")] [sampleRot] ["n"]).2.2) := by
  refine ⟨?_, ?_, ?_, ?_⟩
  · exact per_item_error_isolated.1 sampleDbFail "N1" sampleGuest (.str "Guest")
      "bad request" (by decide) (by decide)
  · exact per_item_error_isolated.2.1 sampleDbFail "N1" (Val.int 0) "pw"
      "bad request" (by decide)
  · exact per_item_error_isolated.2.2.1 sampleDb sampleDbFail [("N1", ["Guest"])]
      [("N1", "Branch-A")] [("Guest", sampleGuest)]
      (by decide) (by decide) (by decide)
  · exact per_item_error_isolated.2.2.2 sampleDbFail [("N1", "Branch-A")] [sampleRot]
      "0" 0 sampleRot (Val.int 0) (Val.str "Guest") "N1" "Branch-A" "pw" ["n"]
      "bad request" (by decide) (by decide) (by decide) (by decide) (by decide)
      (by decide) (by decide) (by decide)

/-! Catalog construction. -/

theorem assocGet_assocSet {α : Type} (m : List (String × α)) (k k' : String) (v : α) :
    assocGet (assocSet m k v) k' = if k' = k then some v else assocGet m k' := by
  by_cases h : k' = k
  · subst h
    simp [assocGet_assocSet_self]
  · simp [h, assocGet_assocSet_ne m k k' v h]

theorem keep_configured_eq :
    ∀ (l : List Dict), (∀ s ∈ l, ∃ t, assocGet s "name" = some (Val.str t)) →
      keep_configured l = .ok (l.filter isConfiguredName) := by
  intro l
  induction l with
  | nil =>
    intro h
    rfl
  | cons s rest ih =>
    intro h
    rcases h s (by simp) with ⟨t, ht⟩
    have ih2 := ih (fun s2 hs2 => h s2 (by simp [hs2]))
    by_cases hsw : t.startsWith "Unconfigured"
    · simp [keep_configured, pyGet, ht, valStr, ih2, List.filter_cons,
        isConfiguredName, hsw]
    · simp [keep_configured, pyGet, ht, valStr, ih2, List.filter_cons,
        isConfiguredName, hsw]

theorem get_all_ssids_eq (db : Dashboard) :
    ∀ (nws : List Network),
      (∀ nw ∈ nws, ∀ s ∈ db.getNetworkWirelessSsids nw.id,
        ∃ t, assocGet s "name" = some (Val.str t)) →
      get_all_ssids db nws =
        (.ok ((nws.map (fun nw =>
            (db.getNetworkWirelessSsids nw.id).filter isConfiguredName)).flatten),
         nws.map (fun nw => ApiEvent.getSsids nw.id),
         nws.map (fun nw => "Retrieving SSIDs for the " ++ nw.name ++ " network")) := by
  intro nws
  induction nws with
  | nil =>
    intro h
    rfl
  | cons nw rest ih =>
    intro h
    have hk := keep_configured_eq (db.getNetworkWirelessSsids nw.id) (h nw (by simp))
    have ih2 := ih (fun nw2 h2 s hs => h nw2 (by simp [h2]) s hs)
    simp [get_all_ssids, hk, ih2, Except.map]

theorem isConfiguredName_prop (d : Dict) (h : isConfiguredName d = true) :
    ∃ t, assocGet d "name" = some (Val.str t) ∧ t.startsWith "Unconfigured" = false := by
  unfold isConfiguredName at h
  cases hg : assocGet d "name" with
  | none =>
    rw [hg] at h
    simp at h
  | some v =>
    cases v with
    | str t =>
      rw [hg] at h
      simp at h
      exact ⟨t, rfl, by simp [h]⟩
    | int n =>
      rw [hg] at h
      simp at h
    | bool b =>
      rw [hg] at h
      simp at h

theorem make_ssid_dict_spec :
    ∀ (l : List Dict) (acc : List (String × Dict)),
      (∀ d ∈ l, ∃ t, assocGet d "name" = some (Val.str t)) →
      (acc.map Prod.fst).Nodup →
      ∃ m, make_ssid_dict acc l = .ok m ∧
        (m.map Prod.fst).Nodup ∧
        (∀ k, assocGet m k =
          (match l.reverse.find?
              (fun d => decide (assocGet d "name" = some (Val.str k))) with
           | some d => some d
           | none => assocGet acc k)) ∧
        (∀ p ∈ m, p ∈ acc ∨
          ∃ d, d ∈ l ∧ ∃ t, assocGet d "name" = some (Val.str t) ∧ p = (t, d)) := by
  intro l
  induction l with
  | nil =>
    intro acc hl hacc
    refine ⟨acc, rfl, hacc, ?_, fun p hp => Or.inl hp⟩
    intro k
    simp
  | cons s rest ih =>
    intro acc hl hacc
    rcases hl s (by simp) with ⟨t, ht⟩
    have hstep : make_ssid_dict acc (s :: rest) =
        make_ssid_dict (assocSet acc t s) rest := by
      simp [make_ssid_dict, pyGet, ht, valStr]
    rcases ih (assocSet acc t s) (fun d hd => hl d (by simp [hd]))
      (keys_nodup_assocSet acc t s hacc) with ⟨m, hm, hnodup, hget, hprov⟩
    refine ⟨m, by rw [hstep, hm], hnodup, ?_, ?_⟩
    · intro k
      rw [hget k]
      cases hfr : rest.reverse.find?
          (fun d => decide (assocGet d "name" = some (Val.str k))) with
      | some d =>
        simp only [hfr, List.reverse_cons, List.find?_append, Option.or]
      | none =>
        simp only [hfr, List.reverse_cons, List.find?_append, Option.or]
        by_cases hk : k = t
        · subst hk
          simp [List.find?, ht, assocGet_assocSet_self]
        · have hne : (assocGet s "name" = some (Val.str k)) = False := by
            rw [ht]
            simp
            exact fun h2 => hk h2.symm
          simp [List.find?, hne, assocGet_assocSet, hk]
    · intro p hp
      rcases hprov p hp with h2 | h2
      · rcases mem_assocSet acc t s p h2 with h3 | h3
        · exact Or.inr ⟨s, by simp, t, ht, h3⟩
        · exact Or.inl h3
      · rcases h2 with ⟨d, hd, t2, ht2, hpd⟩
        exact Or.inr ⟨d, by simp [hd], t2, ht2, hpd⟩

/-- C4: the SSID catalog excludes every SSID whose name starts with the
`Unconfigured` placeholder prefix; every remaining name appears exactly
once as a key of the final catalog (the key list is duplicate-free), and
the record stored under a name is the last record (in network-then-SSID
iteration order) carrying that name. -/
theorem catalog_excludes_and_last_wins (db : Dashboard) (nws : List Network)
    (h : ∀ nw ∈ nws, ∀ s ∈ db.getNetworkWirelessSsids nw.id,
      ∃ t, assocGet s "name" = some (Val.str t)) :
    ∃ l m,
      get_all_ssids db nws =
        (.ok l, nws.map (fun nw => ApiEvent.getSsids nw.id),
         nws.map (fun nw => "Retrieving SSIDs for the " ++ nw.name ++ " network")) ∧
      make_ssid_dict [] l = .ok m ∧
      (∀ p ∈ m, ¬ p.1.startsWith "Unconfigured") ∧
      (m.map Prod.fst).Nodup ∧
      (∀ k, assocGet m k =
        l.reverse.find? (fun d => decide (assocGet d "name" = some (Val.str k)))) := by
  have hall := get_all_ssids_eq db nws h
  have hlnames : ∀ d ∈ (nws.map (fun nw =>
      (db.getNetworkWirelessSsids nw.id).filter isConfiguredName)).flatten,
      isConfiguredName d = true := by
    intro d hd
    rcases List.mem_flatten.mp hd with ⟨part, hpart, hdp⟩
    rcases List.mem_map.mp hpart with ⟨nw, hnw, hpart2⟩
    rw [← hpart2] at hdp
    exact List.of_mem_filter hdp
  have hlnames2 : ∀ d ∈ (nws.map (fun nw =>
      (db.getNetworkWirelessSsids nw.id).filter isConfiguredName)).flatten,
      ∃ t, assocGet d "name" = some (Val.str t) := by
    intro d hd
    rcases isConfiguredName_prop d (hlnames d hd) with ⟨t, ht, hsw⟩
    exact ⟨t, ht⟩
  rcases make_ssid_dict_spec ((nws.map (fun nw =>
      (db.getNetworkWirelessSsids nw.id).filter isConfiguredName)).flatten) []
      hlnames2 (by simp) with ⟨m, hm, hnodup, hget, hprov⟩
  refine ⟨(nws.map (fun nw =>
      (db.getNetworkWirelessSsids nw.id).filter isConfiguredName)).flatten,
    m, hall, hm, ?_, hnodup, ?_⟩
  · intro p hp
    rcases hprov p hp with h2 | h2
    · simp at h2
    · rcases h2 with ⟨d, hd, t, ht, hpd⟩
      rcases isConfiguredName_prop d (hlnames d hd) with ⟨t2, ht2, hsw⟩
      have htt : t = t2 := by
        rw [ht] at ht2
        simpa using ht2
      rw [hpd]
      simp [htt, hsw]
  · intro k
    rw [hget k]
    cases ((nws.map (fun nw =>
        (db.getNetworkWirelessSsids nw.id).filter isConfiguredName)).flatten).reverse.find?
        (fun d => decide (assocGet d "name" = some (Val.str k))) with
    | some d => rfl
    | none => rfl

/-- Witness for `catalog_excludes_and_last_wins` on the sample
organization (whose SSID list contains a placeholder record). -/
theorem catalog_excludes_and_last_wins_witness :
    ∃ l m,
      get_all_ssids sampleDb [sampleNetA] =
        (.ok l, [sampleNetA].map (fun nw => ApiEvent.getSsids nw.id),
         [sampleNetA].map
           (fun nw => "Retrieving SSIDs for the " ++ nw.name ++ " network")) ∧
      make_ssid_dict [] l = .ok m ∧
      (∀ p ∈ m, ¬ p.1.startsWith "Unconfigured") ∧
      (m.map Prod.fst).Nodup ∧
      (∀ k, assocGet m k =
        l.reverse.find? (fun d => decide (assocGet d "name" = some (Val.str k)))) :=
  catalog_excludes_and_last_wins sampleDb [sampleNetA] (by
    intro nw hnw s hs
    simp [sampleDb] at hs
    rcases hs with rfl | rfl | rfl | rfl
    · exact ⟨"Guest", by decide⟩
    · exact ⟨"Staff", by decide⟩
    · exact ⟨"Lobby", by decide⟩
    · exact ⟨"Unconfigured SSID 4", by decide⟩)

/-! PSK listing. -/

theorem psk_filter_eq (net_id : String) :
    ∀ l : List Dict, (∀ s ∈ l, PskOK s) →
      psk_filter net_id l = .ok (l.filterMap (fun s =>
        if assocGet s "authMode" = some (Val.str "psk") then
          match assocGet s "name", assocGet s "number" with
          | some nv, some numv =>
            some [("name", nv), ("number", numv), ("net_id", Val.str net_id)]
          | _, _ => none
        else none)) := by
  intro l
  induction l with
  | nil =>
    intro h
    rfl
  | cons s rest ih =>
    intro h
    rcases h s (by simp) with ⟨ham, himp⟩
    rcases Option.isSome_iff_exists.mp ham with ⟨am, hamv⟩
    have ih2 := ih (fun s2 hs2 => h s2 (by simp [hs2]))
    by_cases hpsk : am = Val.str "psk"
    · subst hpsk
      rcases himp hamv with ⟨hnm, hnum⟩
      rcases Option.isSome_iff_exists.mp hnm with ⟨nv, hnv⟩
      rcases Option.isSome_iff_exists.mp hnum with ⟨numv, hnumv⟩
      simp [psk_filter, pyGet, hamv, hnv, hnumv, ih2, List.filterMap_cons]
    · have hne : ¬ (assocGet s "authMode" = some (Val.str "psk")) := by
        rw [hamv]
        intro hcon
        exact hpsk (by simpa using hcon)
      simp [psk_filter, pyGet, hamv, hpsk, ih2, List.filterMap_cons, hne]

theorem get_psk_net_ssids_eq (db : Dashboard) (net_id : String)
    (h : ∀ s ∈ db.getNetworkWirelessSsids net_id, PskOK s) :
    get_psk_net_ssids db net_id =
      (.ok (psk_spec_one db net_id), [.getSsids net_id]) := by
  simp only [get_psk_net_ssids, psk_spec_one,
    psk_filter_eq net_id (db.getNetworkWirelessSsids net_id) h]

theorem psk_collect_eq (db : Dashboard) :
    ∀ (targets : List (String × List String)),
      (∀ q ∈ targets, ∀ s ∈ db.getNetworkWirelessSsids q.1, PskOK s) →
      psk_collect db targets =
        (.ok ((targets.map (fun q => psk_spec_one db q.1)).flatten),
         targets.map (fun q => ApiEvent.getSsids q.1)) := by
  intro targets
  induction targets with
  | nil =>
    intro h
    rfl
  | cons q rest ih =>
    obtain ⟨net_id, names⟩ := q
    intro h
    have hq := get_psk_net_ssids_eq db net_id (h (net_id, names) (by simp))
    have ih2 := ih (fun q2 h2 s hs => h q2 (by simp [h2]) s hs)
    simp [psk_collect, hq, ih2, Except.map]

theorem pyListIndex_mem (x : Dict) :
    ∀ l : List Dict, x ∈ l → pyListIndex x l = .ok (listIdx x l) := by
  intro l
  induction l with
  | nil =>
    intro h
    simp at h
  | cons y rest ih =>
    intro h
    by_cases hy : y = x
    · simp [pyListIndex, listIdx, hy]
    · have hx : x ∈ rest := by
        rcases List.mem_cons.mp h with h2 | h2
        · exact absurd h2.symm hy
        · exact h2
      simp [pyListIndex, listIdx, hy, ih hx, Except.map]

theorem listIdx_nodup :
    ∀ (l : List Dict), l.Nodup → ∀ (i : Nat) (s : Dict),
      l[i]? = some s → listIdx s l = i := by
  intro l
  induction l with
  | nil =>
    intro hnd i s h
    simp at h
  | cons y rest ih =>
    intro hnd i s h
    rcases List.nodup_cons.mp hnd with ⟨hy, hrest⟩
    cases i with
    | zero =>
      simp at h
      simp [listIdx, h]
    | succ j =>
      simp at h
      have hs : s ∈ rest := List.getElem?_mem h
      have hne : ¬ (y = s) := by
        intro he
        rw [he] at hy
        exact hy hs
      simp [listIdx, hne, ih hrest j s h]

theorem psk_print_lines_eq (n2n : List (String × String)) (full : List Dict) :
    ∀ iter : List Dict, (∀ s ∈ iter, LineOK n2n full s) →
      psk_print_lines n2n full iter = .ok (iter.map (line_for n2n full)) := by
  intro iter
  induction iter with
  | nil =>
    intro h
    rfl
  | cons s rest ih =>
    intro h
    rcases h s (by simp) with ⟨hmem, hnm, nid, hnid, hn2n⟩
    rcases Option.isSome_iff_exists.mp hnm with ⟨nv, hnv⟩
    rcases Option.isSome_iff_exists.mp hn2n with ⟨nn, hnn⟩
    have hidx := pyListIndex_mem s full hmem
    have ih2 := ih (fun s2 hs2 => h s2 (by simp [hs2]))
    simp [psk_print_lines, hidx, pyGet, hnid, valStr, hnn, hnv, ih2,
      line_for]

/-- C5: the PSK rotation listing is exactly the SSIDs of the target
networks whose `authMode` is `"psk"`, concatenated in target-network
iteration order and, inside one network, in SSID list order (each annotated
with name, number and network id); and, when the concatenated list is
duplicate-free and its records are well formed, the line printed for the
entry at position `i` is `i - name of net_name`. -/
theorem psk_listing_exact :
    (∀ (db : Dashboard) (targets : List (String × List String)),
        (∀ q ∈ targets, ∀ s ∈ db.getNetworkWirelessSsids q.1, PskOK s) →
        psk_collect db targets =
          (.ok ((targets.map (fun q => psk_spec_one db q.1)).flatten),
           targets.map (fun q => ApiEvent.getSsids q.1)))
    ∧ (∀ (n2n : List (String × String)) (full : List Dict),
        full.Nodup → (∀ s ∈ full, LineOK n2n full s) →
        ∃ lines, psk_print_lines n2n full full = .ok lines ∧
          lines.length = full.length ∧
          ∀ (i : Nat) (s : Dict), full[i]? = some s →
            ∃ nv nid nn, assocGet s "name" = some nv ∧
              assocGet s "net_id" = some (Val.str nid) ∧
              assocGet n2n nid = some nn ∧
              lines[i]? = some (toString i ++ " - " ++ valText nv ++ " of " ++ nn)) := by
  constructor
  · intro db targets h
    exact psk_collect_eq db targets h
  · intro n2n full hnd h
    refine ⟨full.map (line_for n2n full), psk_print_lines_eq n2n full full h, by simp, ?_⟩
    intro i s hi
    have hmem : s ∈ full := List.getElem?_mem hi
    rcases h s hmem with ⟨hmem2, hnm, nid, hnid, hn2n⟩
    rcases Option.isSome_iff_exists.mp hnm with ⟨nv, hnv⟩
    rcases Option.isSome_iff_exists.mp hn2n with ⟨nn, hnn⟩
    refine ⟨nv, nid, nn, hnv, hnid, hnn, ?_⟩
    have hmap : (full.map (line_for n2n full))[i]? = some (line_for n2n full s) := by
      simp [List.getElem?_map, hi]
    rw [hmap]
    have hli : listIdx s full = i := listIdx_nodup full hnd i s hi
    simp [line_for, hli, hnv, hnid, hnn]

/-- Witness for `psk_listing_exact` on the sample network: the listing is
the Guest and Staff entries in order, printed as lines `0` and `1`. -/
theorem psk_listing_exact_witness :
    psk_collect sampleDb [("N1", ["Guest"])] =
      (.ok (([("N1", ["Guest"])].map
          (fun q => psk_spec_one sampleDb q.1)).flatten),
       [("N1", ["Guest"])].map (fun q => ApiEvent.getSsids q.1)) ∧
    ∃ lines,
      psk_print_lines [("N1", "Branch-A")] [sampleRot, sampleRotStaff]
          [sampleRot, sampleRotStaff] = .ok lines ∧
      lines.length = [sampleRot, sampleRotStaff].length ∧
      ∀ (i : Nat) (s : Dict), [sampleRot, sampleRotStaff][i]? = some s →
        ∃ nv nid nn, assocGet s "name" = some nv ∧
          assocGet s "net_id" = some (Val.str nid) ∧
          assocGet [("N1", "Branch-A")] nid = some nn ∧
          lines[i]? = some (toString i ++ " - " ++ valText nv ++ " of " ++ nn) := by
  constructor
  · exact psk_listing_exact.1 sampleDb [("N1", ["Guest"])] (by decide)
  · refine psk_listing_exact.2 [("N1", "Branch-A")] [sampleRot, sampleRotStaff]
      (by decide) ?_
    intro s hs
    simp [sampleRot, sampleRotStaff] at hs
    rcases hs with rfl | rfl
    · exact ⟨by simp [sampleRot, sampleRotStaff], by decide, "N1", by decide, by decide⟩
    · exact ⟨by simp [sampleRot, sampleRotStaff], by decide, "N1", by decide, by decide⟩

end ConfigureSsids
